import Mathlib

/-!
Shallow embedding of `fontMakeExport.glyphsFileFormat/Contents/Resources/plugin.py`
(the FontMakeExport Glyphs.app export plugin), together with proofs about the
behaviour of its pure fragments: the fontmake error-line filter, the argument
list construction (including shlex word splitting), the per-layer outline
normalization passes, the recent-export-path recording, the additional-options
accumulation, and the virtual-environment bootstrap.

Host-application objects (GSLayer, GSPath, pens, NSMutableOrderedSet, the
preference store, subprocesses) are modelled explicitly; host API calls whose
geometric effect is opaque to the plugin are abstract functions collected in a
`HostApi` record.
-/

namespace FontMakeExport

/-! ### Python string primitives -/

/-- Python `str.splitlines()` restricted to the line terminators that can occur
in captured subprocess output: `\n`, `\r` and `\r\n`.  A trailing terminator
does not produce a final empty line, and the empty string has no lines. -/
def splitlinesAux : List Char → List Char → List String
  | [], acc => if acc.isEmpty then [] else [String.mk acc.reverse]
  | '\r' :: '\n' :: rest, acc => String.mk acc.reverse :: splitlinesAux rest []
  | '\n' :: rest, acc => String.mk acc.reverse :: splitlinesAux rest []
  | '\r' :: rest, acc => String.mk acc.reverse :: splitlinesAux rest []
  | c :: rest, acc => splitlinesAux rest (c :: acc)

/-- Python `s.splitlines()`. -/
def pySplitlines (s : String) : List String := splitlinesAux s.data []

/-- Python `s.startswith(pre)`: `pre` is a prefix of `s`. -/
def pyStartswith (s pre : String) : Bool := pre.data.isPrefixOf s.data

/-- Containment of a character list in another (Python `needle in hay` on the
underlying character sequences). -/
def inChars (needle : List Char) : List Char → Bool
  | [] => needle == []
  | c :: rest => needle.isPrefixOf (c :: rest) || inChars needle rest

/-- Python `needle in hay` for strings. -/
def pyInStr (needle hay : String) : Bool := inChars needle.data hay.data

/-- Python `sep.join(xs)`. -/
def pyJoin (sep : String) : List String → String
  | [] => ""
  | a :: as => as.foldl (fun acc x => acc ++ sep ++ x) a

/-- Python `list.insert(i, x)` (insert before index `i`, clamping to the end). -/
def pyInsert {α : Type} : Nat → α → List α → List α
  | 0, x, l => x :: l
  | _ + 1, x, [] => [x]
  | i + 1, x, a :: l => a :: pyInsert i x l

/-- Python `del l[i]` for an in-range index (out-of-range indices, which would
raise `IndexError`, are never reached by the code modelled here). -/
def pyDel {α : Type} : Nat → List α → List α
  | _, [] => []
  | 0, _ :: l => l
  | i + 1, a :: l => a :: pyDel i l

/-! ### `shlex.split` (POSIX mode, whitespace splitting)

`plugin.py` tokenizes the user-supplied additional-options string with
`shlex.split`.  The states are: outside quotes, inside single quotes, inside
double quotes, and the two escape continuations.  An unterminated quote or a
trailing escape raises `ValueError` in Python, modelled as `none`. -/

inductive ShlexMode where
  | norm
  | inSq
  | inDq
  | escNorm
  | escDq
deriving DecidableEq

/-- Characters `shlex` treats as token-separating whitespace. -/
def shlexWs (c : Char) : Bool := c = ' ' || c = '\t' || c = '\r' || c = '\n'

/-- The `shlex` scanner: remaining input, mode, reversed current token,
whether a token has been started, accumulated tokens. -/
def shlexRun : List Char → ShlexMode → List Char → Bool → List String → Option (List String)
  | [], .norm, tok, started, acc =>
    some (acc ++ if started then [String.mk tok.reverse] else [])
  | [], _, _, _, _ => none
  | c :: rest, .norm, tok, started, acc =>
    if shlexWs c then
      if started then shlexRun rest .norm [] false (acc ++ [String.mk tok.reverse])
      else shlexRun rest .norm tok started acc
    else if c = '\'' then shlexRun rest .inSq tok true acc
    else if c = '"' then shlexRun rest .inDq tok true acc
    else if c = '\\' then shlexRun rest .escNorm tok true acc
    else shlexRun rest .norm (c :: tok) true acc
  | c :: rest, .inSq, tok, _, acc =>
    if c = '\'' then shlexRun rest .norm tok true acc
    else shlexRun rest .inSq (c :: tok) true acc
  | c :: rest, .inDq, tok, _, acc =>
    if c = '"' then shlexRun rest .norm tok true acc
    else if c = '\\' then shlexRun rest .escDq tok true acc
    else shlexRun rest .inDq (c :: tok) true acc
  | c :: rest, .escNorm, tok, _, acc => shlexRun rest .norm (c :: tok) true acc
  | c :: rest, .escDq, tok, _, acc =>
    if c = '"' || c = '\\' then shlexRun rest .inDq (c :: tok) true acc
    else shlexRun rest .inDq (c :: '\\' :: tok) true acc

/-- Python `shlex.split(s)` (POSIX mode); `none` models the `ValueError`
raised on an unterminated quote or a dangling escape character. -/
def shlexSplit (s : String) : Option (List String) := shlexRun s.data .norm [] false []

/-! ### The fontmake error-line filter (`FontMakeExport.export`, tail) -/

/-- A line of captured output that `export` treats as a fatal-error line:
it begins with `"ERROR:"` or contains `"fontmake: Error:"`. -/
def isFatalLine (line : String) : Bool :=
  pyStartswith line "ERROR:" || pyInStr "fontmake: Error:" line

/-- The `errorLines` accumulation loop of `export`: walk the lines of the
captured output and append each fatal-error line. -/
def fontmakeErrorLines (stdout : String) : List String :=
  (pySplitlines stdout).foldl (fun acc line => if isFatalLine line then acc ++ [line] else acc) []

/-- The generic fallback failure message of `export`. -/
def genericErrorMessage : String := "An error occurred. Check Macro Window for details."

/-- `"\n".join(errorLines) or "An error occurred. ..."`: the failure message
built by `export` when the subprocess exits non-zero. -/
def fontmakeErrorMessage (stdout : String) : String :=
  let joined := pyJoin "\n" (fontmakeErrorLines stdout)
  if joined = "" then genericErrorMessage else joined

/-! ### Font data model

A shape is a `GSPath` or a `GSComponent`; its `attributes` dictionary is
modelled as an association list from attribute key to the Python truthiness of
the stored value (the plugin only ever tests key presence or truthiness). -/

inductive ShapeKind where
  | path
  | component
deriving DecidableEq

structure Shape where
  kind : ShapeKind
  attributes : List (String × Bool)
deriving DecidableEq

/-- Python `key in shape.attributes` (key presence). -/
def Shape.hasAttr (sh : Shape) (k : String) : Bool := (sh.attributes.lookup k).isSome

/-- Python `if shape.attributes.get(key, False):` (truthiness of the value). -/
def Shape.truthyAttr (sh : Shape) (k : String) : Bool := (sh.attributes.lookup k).getD false

structure Layer where
  isMasterLayer : Bool
  isSpecialLayer : Bool
  shapes : List Shape
deriving DecidableEq

structure Glyph where
  layers : List Layer
deriving DecidableEq

structure Font where
  familyName : String
  glyphs : List Glyph
deriving DecidableEq

/-- Host-application outline operations whose geometric content is opaque to
the plugin: `GSLayer.decomposeCorners()`, `GSPath.expandedStroke()`,
`GSComponent.decompose()` (the paths a reversed component decomposes into),
and the pen drawing of `bake_everything` (the layer's combined
`layer.bezierPath` drawn into a fresh layer's pen, yielding one flattened
shape). -/
structure HostApi where
  decomposeCornersOp : Layer → Layer
  expandedStroke : Shape → List Shape
  decomposedPaths : Shape → List Shape
  bakedShape : Layer → Shape

/-! ### Outline normalization passes (`FontMakeExport` methods) -/

/-- `bake_everything`: copy the shape list, draw the layer's combined bezier
path into a fresh layer's pen, delete every original shape (the reverse-index
`del` loop empties the list), then assign the pen-drawn shapes; the net effect
is that the layer's shapes become the single flattened pen-drawn shape. -/
def bake_everything (api : HostApi) (layer : Layer) : Layer :=
  { layer with shapes := [api.bakedShape layer] }

/-- `decompose_corners`: delegate to the host's `layer.decomposeCorners()`. -/
def decompose_corners (api : HostApi) (layer : Layer) : Layer :=
  api.decomposeCornersOp layer

/-- `decompose_reversed_components`: each component whose `reversePaths`
attribute is truthy is decomposed in place into its paths. -/
def decompose_reversed_components (api : HostApi) (layer : Layer) : Layer :=
  { layer with
    shapes := (layer.shapes.map (fun sh =>
      if sh.kind = ShapeKind.component && sh.truthyAttr "reversePaths" then
        api.decomposedPaths sh
      else [sh])).flatten }

/-- The shapes `decompose_outlines` replaces: `GSPath`s carrying a
`strokeWidth` or `strokeHeight` attribute. -/
def strokeExpandTarget (sh : Shape) : Bool :=
  sh.kind = ShapeKind.path && (sh.hasAttr "strokeWidth" || sh.hasAttr "strokeHeight")

/-- One iteration of the `decompose_outlines` loop at index `i`: read
`shapes[i]` (the `none` branch models the out-of-range read, which the loop
never performs); when it is a stroke-attributed path, delete it and insert
each path of its expanded stroke at index `i` in turn. -/
def doVisit (expand : Shape → List Shape) (i : Nat) (shapes : List Shape) : List Shape :=
  match shapes[i]? with
  | none => shapes
  | some shape =>
    if strokeExpandTarget shape then
      (expand shape).foldl (fun acc p => pyInsert i p acc) (pyDel i shapes)
    else shapes

/-- The loop of `decompose_outlines`: for `s` in `range(shapes_length)` the
index `shapes_length - s - 1` is visited, i.e. the indices
`n-1, n-2, ..., 0` in that order; `decomposeOutlinesStep expand k` performs
the iterations for indices `k-1` down to `0` on the live shape list. -/
def decomposeOutlinesStep (expand : Shape → List Shape) : Nat → List Shape → List Shape
  | 0, shapes => shapes
  | i + 1, shapes => decomposeOutlinesStep expand i (doVisit expand i shapes)

/-- The per-shape effect the claim attributes to `decompose_outlines`: a
stroke-attributed path is replaced (by its expanded stroke, which the
insertion loop leaves in reversed order), every other shape stays as it is. -/
def strokeReplace (expand : Shape → List Shape) (sh : Shape) : List Shape :=
  if strokeExpandTarget sh then (expand sh).reverse else [sh]

/-- `decompose_outlines`: run the reverse-index expansion loop over the
layer's shapes. -/
def decompose_outlines (api : HostApi) (layer : Layer) : Layer :=
  { layer with shapes := decomposeOutlinesStep api.expandedStroke layer.shapes.length layer.shapes }

/-- The `has_masks` scan of `export`: a flag initialised to `False` and set
whenever a shape's attributes contain `"mask"`. -/
def layerHasMasks (layer : Layer) : Bool :=
  layer.shapes.foldl (fun b sh => if sh.hasAttr "mask" then true else b) false

/-- The per-layer body of the normalization loop in `export`: master layers
and special layers are either baked (when some shape carries a mask) or run
through the three decomposition passes in order; all other layers are left
alone (the loop iterates `filter(lambda x: x.isMasterLayer or
x.isSpecialLayer, glyph.layers)`). -/
def normalizeLayerStep (api : HostApi) (layer : Layer) : Layer :=
  if layer.isMasterLayer || layer.isSpecialLayer then
    if layerHasMasks layer then
      bake_everything api layer
    else
      decompose_reversed_components api (decompose_outlines api (decompose_corners api layer))
  else layer

/-- The whole normalization loop of `export`, applied to the copied font. -/
def normalizeFont (api : HostApi) (font : Font) : Font :=
  { font with
    glyphs := font.glyphs.map (fun g => { g with layers := g.layers.map (normalizeLayerStep api) }) }

/-! ### Paths, environment bootstrap and the export pipeline -/

/-- `os.path.join` for the relative second components used by the plugin. -/
def pathJoin (a b : String) : String := a ++ "/" ++ b

/-- The host-visible state an export invocation reads: filesystem facts, the
preference store, the folder-picker outcome, and the behaviour of the one
compiler subprocess (its exit code and captured combined output). -/
structure PyEnv where
  contentsDir : String
  glyphsPythonRoot : String
  venvExists : Bool
  venvRc : Int
  pipRc : Int
  appSupportPath : String
  useExportPath : Bool
  exportPathPref : Option String
  folderChoice : Option String
  outlineformat : Int
  additionalOptions : Option String
  compilerRc : Int
  compilerStdout : String
deriving DecidableEq

/-- `venvPath`: the `venv` directory next to the plugin's `Resources`. -/
def venvDirOf (e : PyEnv) : String := pathJoin e.contentsDir "venv"

/-- The venv interpreter `<venv>/bin/python3`. -/
def venvPythonPathOf (e : PyEnv) : String := pathJoin (venvDirOf e) "bin/python3"

/-- The host interpreter `<currentPythonPath>/bin/python3`. -/
def glyphsPythonPathOf (e : PyEnv) : String := pathJoin e.glyphsPythonRoot "bin/python3"

/-- `<venv>/bin/pip3`. -/
def venvPipPathOf (e : PyEnv) : String := pathJoin (venvDirOf e) "bin/pip3"

/-- The venv-creation command `[glyphsPythonPath, "-m", "venv", venvPath]`. -/
def venvCommand (e : PyEnv) : List String :=
  [glyphsPythonPathOf e, "-m", "venv", venvDirOf e]

/-- The install command `[venvPipPath, "install", "fontmake[all]"]`. -/
def pipCommand (e : PyEnv) : List String :=
  [venvPipPathOf e, "install", "fontmake[all]"]

/-- `setUpEnviroment` (source spelling): return the venv interpreter path at
once when it exists; otherwise run the venv-creation and pip-install
subprocesses with `check=True`, so a non-zero exit raises
`CalledProcessError`.  The first component records the subprocess commands
actually started, the second is the returned path or the raised exception. -/
def setUpEnviroment (e : PyEnv) : List (List String) × Except String String :=
  if e.venvExists then
    ([], Except.ok (venvPythonPathOf e))
  else if e.venvRc ≠ 0 then
    ([venvCommand e], Except.error "CalledProcessError: venv")
  else if e.pipRc ≠ 0 then
    ([venvCommand e, pipCommand e], Except.error "CalledProcessError: pip install")
  else
    ([venvCommand e, pipCommand e], Except.ok (venvPythonPathOf e))

/-- The `outlineformatKeys` dictionary; `none` models the `KeyError` a lookup
of any other value would raise. -/
def outlineformatKeys (fmt : Int) : Option (List String) :=
  if fmt = 1 then some ["variable"]
  else if fmt = 2 then some ["variable-cff2"]
  else if fmt = 3 then some ["otf", "-i"]
  else if fmt = 4 then some ["ttf", "-i"]
  else none

/-- The extra tokens appended to the argument list: nothing when the
additional-options preference is missing or falsy (the empty string),
otherwise its `shlex.split` tokens (`none` models the raised `ValueError`).
The `len(...) > 0` guard in the source only skips an empty `extend` and does
not change the resulting list. -/
def effectiveTokens : Option String → Option (List String)
  | none => some []
  | some s => if s = "" then some [] else shlexSplit s

/-- The argument-list construction of `export`: the fixed head, the
format-specific flag tuple, then the tokenized additional options. -/
def buildArguments (venvPython exportPath tempFile : String) (fmt : Int)
    (additionalOptions : Option String) : Option (List String) :=
  match outlineformatKeys fmt with
  | none => none
  | some flags =>
    match effectiveTokens additionalOptions with
    | none => none
    | some toks =>
      some ([venvPython, "-m", "fontmake", "--output-dir", exportPath, "-g", tempFile, "-o"]
        ++ flags ++ toks)

/-- What one run of `FontMakeExport.export` did and returned: the bootstrap
subprocesses it started, the staged (normalized) copy and where it was saved,
the compiler argument list (when the compiler was invoked), the document font
after the run, and the `(success, message)` pair handed back to the host. -/
structure ExportTrace where
  ranCommands : List (List String)
  stagedFont : Option Font
  savedPath : Option String
  compilerArgs : Option (List String)
  documentFont : Font
  success : Bool
  message : String
deriving DecidableEq

/-- `tempPath(familyName)` followed by the `os.path.join(tempFolder,
"font.glyphs")` of `export`: the staged file lives in the per-family temp
directory under the application-support path. -/
def tempFileOf (e : PyEnv) (familyName : String) : String :=
  pathJoin (pathJoin (pathJoin e.appSupportPath "Temp") familyName) "font.glyphs"

/-- `FontMakeExport.export`: bootstrap the venv, resolve the export
destination, copy and normalize the font (the normalization runs on
`font.copy()`, so the document font comes out of the run untouched), stage
the copy to the per-family temp file, build the fontmake argument list and
inspect the subprocess result.  `Except.error` models an uncaught Python
exception escaping `export` (the name `export` itself is reserved in
Lean). -/
def exportFont (api : HostApi) (e : PyEnv) (font : Font) : Except String ExportTrace :=
  match (setUpEnviroment e).2 with
  | Except.error msg => Except.error msg
  | Except.ok venvPython =>
    match (if e.useExportPath then e.exportPathPref else e.folderChoice) with
    | none =>
      Except.ok
        { ranCommands := (setUpEnviroment e).1, stagedFont := none, savedPath := none,
          compilerArgs := none, documentFont := font, success := false,
          message := "No export path" }
    | some exportPath =>
      match buildArguments venvPython exportPath
          (tempFileOf e (normalizeFont api font).familyName) e.outlineformat
          e.additionalOptions with
      | none => Except.error "KeyError or ValueError while building arguments"
      | some args =>
        if e.compilerRc ≠ 0 then
          Except.ok
            { ranCommands := (setUpEnviroment e).1,
              stagedFont := some (normalizeFont api font),
              savedPath := some (tempFileOf e (normalizeFont api font).familyName),
              compilerArgs := some args, documentFont := font, success := false,
              message := fontmakeErrorMessage e.compilerStdout }
        else
          Except.ok
            { ranCommands := (setUpEnviroment e).1,
              stagedFont := some (normalizeFont api font),
              savedPath := some (tempFileOf e (normalizeFont api font).familyName),
              compilerArgs := some args, documentFont := font, success := true,
              message := "OK" }

/-! ### `GSAddOptionViewController.addParameter_` -/

/-- The add-option callback: an empty selection returns before touching the
preference; otherwise the selected identifiers, joined by single spaces, are
appended directly to the stored string (or to `""` when none is stored). -/
def addParameter (selectedIdentifiers : List String) (stored : Option String) : Option String :=
  if selectedIdentifiers.length = 0 then stored
  else
    let options := match stored with | none => "" | some s => s
    some (options ++ pyJoin " " selectedIdentifiers)

/-! ### Recent export paths (`openDoc_`)

`openDoc_` rebuilds the recent-paths preference through an
`NSMutableOrderedSet`.  Modelled Foundation semantics: the ordered set keeps
distinct objects in insertion order, `initWithArray:` skips elements already
added, and `insertObject:atIndex:` has no effect when the object is already a
member of the set. -/

/-- One step of `NSMutableOrderedSet.initWithArray:`. -/
def nsDedupStep (acc : List String) (x : String) : List String :=
  if x ∈ acc then acc else acc ++ [x]

/-- `NSMutableOrderedSet.alloc().initWithArray_(l)`: keep the first occurrence
of each element, in order. -/
def nsOrderedSetFromArray (l : List String) : List String :=
  l.foldl nsDedupStep []

/-- `insertObject:atIndex:0` on the ordered set: prepend the object unless it
is already a member, in which case nothing happens. -/
def nsOrderedSetInsertAtZero (l : List String) (x : String) : List String :=
  if x ∈ l then l else x :: l

/-- The recent-paths update of `openDoc_`: read the stored list (a missing or
empty preference becomes `[]`), build the ordered set, insert the new path at
index 0, and store the resulting array. -/
def recordRecentExportPath (stored : Option (List String)) (path : String) : List String :=
  nsOrderedSetInsertAtZero (nsOrderedSetFromArray (stored.getD [])) path

/-! ### Concrete sample values used by witnesses and counterexamples -/

/-- A concrete host API whose opaque operations are simple total functions. -/
def apiDefault : HostApi where
  decomposeCornersOp := fun layer => layer
  expandedStroke := fun sh => [sh]
  decomposedPaths := fun sh => [{ sh with kind := ShapeKind.path }]
  bakedShape := fun _ => { kind := ShapeKind.path, attributes := [] }

/-- A concrete environment: venv present, fixed export path configured, TTF
variable output, no extra options, compiler succeeded but printed an
`ERROR:` line. -/
def envErrorLineZeroExit : PyEnv where
  contentsDir := "/Plugins/fontMakeExport.glyphsFileFormat/Contents"
  glyphsPythonRoot := "/Glyphs/Python"
  venvExists := true
  venvRc := 0
  pipRc := 0
  appSupportPath := "/AppSupport"
  useExportPath := true
  exportPathPref := some "/out"
  folderChoice := none
  outlineformat := 1
  additionalOptions := none
  compilerRc := 0
  compilerStdout := "ERROR: something went wrong"

/-- The same environment with no usable export destination. -/
def envNoPath : PyEnv :=
  { envErrorLineZeroExit with useExportPath := false, folderChoice := none }

/-- The same environment but with the venv absent and a failing venv-creation
subprocess. -/
def envVenvMissing : PyEnv :=
  { envErrorLineZeroExit with venvExists := false, venvRc := 1 }

/-- A concrete master layer holding one shape that carries a mask
attribute. -/
def layerWithMask : Layer where
  isMasterLayer := true
  isSpecialLayer := false
  shapes := [{ kind := ShapeKind.path, attributes := [("mask", true)] }]

/-- A tiny concrete font: one glyph with the mask-carrying master layer. -/
def fontSample : Font where
  familyName := "Fam"
  glyphs := [{ layers := [layerWithMask] }]

/-- The environment of `envErrorLineZeroExit` with a failing compiler run. -/
def envCompilerFails : PyEnv :=
  { envErrorLineZeroExit with compilerRc := 1, compilerStdout := "ERROR: boom" }

/-- The trace `export` produces for `envNoPath`. -/
def traceNoPath : ExportTrace where
  ranCommands := []
  stagedFont := none
  savedPath := none
  compilerArgs := none
  documentFont := fontSample
  success := false
  message := "No export path"

/-- The trace `export` produces for `envCompilerFails` and `fontSample`. -/
def traceCompilerFails : ExportTrace where
  ranCommands := []
  stagedFont := some (normalizeFont apiDefault fontSample)
  savedPath := some (tempFileOf envCompilerFails (normalizeFont apiDefault fontSample).familyName)
  compilerArgs :=
    some [venvPythonPathOf envCompilerFails, "-m", "fontmake", "--output-dir", "/out", "-g",
      tempFileOf envCompilerFails (normalizeFont apiDefault fontSample).familyName, "-o",
      "variable"]
  documentFont := fontSample
  success := false
  message := fontmakeErrorMessage envCompilerFails.compilerStdout

/-! ### Helper lemmas -/

theorem foldl_filter_append (p : String → Bool) (l : List String) (acc : List String) :
    l.foldl (fun acc line => if p line then acc ++ [line] else acc) acc = acc ++ l.filter p := by
  induction l generalizing acc with
  | nil => simp
  | cons a l ih => cases h : p a <;> simp [h, ih]

theorem fontmakeErrorLines_eq_filter (stdout : String) :
    fontmakeErrorLines stdout = (pySplitlines stdout).filter isFatalLine := by
  rw [fontmakeErrorLines, foldl_filter_append]
  simp

theorem foldl_join_length (sep : String) (as : List String) (acc : String) :
    acc.length ≤ (as.foldl (fun acc x => acc ++ sep ++ x) acc).length := by
  induction as generalizing acc with
  | nil => simp
  | cons a as ih =>
    refine le_trans ?_ (ih (acc ++ sep ++ a))
    simp only [String.length_append]
    omega

theorem pyJoin_ne_empty (sep : String) (a : String) (as : List String) (ha : a ≠ "") :
    pyJoin sep (a :: as) ≠ "" := by
  intro h
  have h1 : 0 < a.length := by
    cases a with
    | mk data =>
      cases data with
      | nil => exact absurd rfl ha
      | cons c cs => simp [String.length]
  have h2 := foldl_join_length sep as a
  rw [pyJoin] at h
  rw [h] at h2
  have h3 : ("" : String).length = 0 := rfl
  rw [h3] at h2
  omega

theorem isFatalLine_empty : isFatalLine "" = false := by decide

theorem foldl_or_eq_any (p : Shape → Bool) (l : List Shape) (b : Bool) :
    l.foldl (fun b sh => if p sh then true else b) b = (b || l.any p) := by
  induction l generalizing b with
  | nil => simp
  | cons a l ih =>
    rw [List.foldl_cons, List.any_cons]
    cases h : p a
    · rw [if_neg (by simp [h]), ih]
      simp [h]
    · rw [if_pos (by simp [h]), ih]
      simp [h]

theorem layerHasMasks_eq_any (layer : Layer) :
    layerHasMasks layer = layer.shapes.any (fun sh => sh.hasAttr "mask") := by
  rw [layerHasMasks, foldl_or_eq_any]
  simp

theorem mem_nsDedupFold (l : List String) (acc : List String) (x : String) :
    x ∈ l.foldl nsDedupStep acc ↔ x ∈ acc ∨ x ∈ l := by
  induction l generalizing acc with
  | nil => simp
  | cons a l ih =>
    simp only [List.foldl_cons, ih, nsDedupStep]
    by_cases h : a ∈ acc
    · simp only [if_pos h, List.mem_cons]
      constructor
      · rintro (hx | hx) <;> tauto
      · rintro (hx | rfl | hx) <;> tauto
    · simp only [if_neg h, List.mem_append, List.mem_singleton, List.mem_cons]
      tauto

theorem nodup_nsDedupFold (l : List String) (acc : List String) (h : acc.Nodup) :
    (l.foldl nsDedupStep acc).Nodup := by
  induction l generalizing acc with
  | nil => simpa
  | cons a l ih =>
    simp only [List.foldl_cons]
    apply ih
    unfold nsDedupStep
    by_cases ha : a ∈ acc
    · simpa [ha]
    · simp only [if_neg ha]
      exact List.nodup_append.mpr ⟨h, List.nodup_singleton a, by simpa [List.disjoint_singleton]⟩

theorem mem_nsOrderedSetFromArray (l : List String) (x : String) :
    x ∈ nsOrderedSetFromArray l ↔ x ∈ l := by
  simpa using mem_nsDedupFold l [] x

theorem nodup_nsOrderedSetFromArray (l : List String) : (nsOrderedSetFromArray l).Nodup :=
  nodup_nsDedupFold l [] List.nodup_nil

theorem pyDel_append_length {α : Type} (ys : List α) (a : α) (suf : List α) :
    pyDel ys.length (ys ++ a :: suf) = ys ++ suf := by
  induction ys with
  | nil => rfl
  | cons y ys ih => simp [pyDel, ih]

theorem pyInsert_append_length {α : Type} (ys : List α) (x : α) (rest : List α) :
    pyInsert ys.length x (ys ++ rest) = ys ++ x :: rest := by
  induction ys with
  | nil => rfl
  | cons y ys ih => simp [pyInsert, ih]

theorem getElem_append_length {α : Type} (ys : List α) (a : α) (suf : List α) :
    (ys ++ a :: suf)[ys.length]? = some a := by
  induction ys with
  | nil => simp
  | cons y ys ih => simpa using ih

theorem foldl_pyInsert_append {α : Type} (ps : List α) (ys rest : List α) :
    ps.foldl (fun acc p => pyInsert ys.length p acc) (ys ++ rest) = ys ++ (ps.reverse ++ rest) := by
  induction ps generalizing rest with
  | nil => simp
  | cons p ps ih =>
    simp only [List.foldl_cons, pyInsert_append_length, List.reverse_cons]
    rw [ih (p :: rest)]
    simp

theorem doVisit_append (expand : Shape → List Shape) (ys : List Shape) (a : Shape)
    (suf : List Shape) :
    doVisit expand ys.length (ys ++ a :: suf)
      = if strokeExpandTarget a then ys ++ ((expand a).reverse ++ suf) else ys ++ a :: suf := by
  unfold doVisit
  split
  · rename_i heq
    rw [getElem_append_length] at heq
    cases heq
  · rename_i shape heq
    rw [getElem_append_length] at heq
    injection heq with heq
    subst heq
    by_cases h : strokeExpandTarget a
    · rw [if_pos h, if_pos h, pyDel_append_length, foldl_pyInsert_append]
    · rw [if_neg h, if_neg h]

theorem decomposeOutlinesStep_rev (expand : Shape → List Shape) (rev suf : List Shape) :
    decomposeOutlinesStep expand rev.length (rev.reverse ++ suf)
      = ((rev.reverse.map (strokeReplace expand)).flatten) ++ suf := by
  induction rev generalizing suf with
  | nil => simp [decomposeOutlinesStep]
  | cons a rest ih =>
    simp only [List.reverse_cons, List.length_cons]
    rw [List.append_assoc, List.singleton_append]
    have hlen : rest.length = rest.reverse.length := (List.length_reverse rest).symm
    rw [hlen]
    simp only [decomposeOutlinesStep]
    rw [doVisit_append]
    by_cases h : strokeExpandTarget a
    · rw [if_pos h, ← hlen, ih]
      simp [strokeReplace, h]
    · rw [if_neg h, ← hlen, ih]
      simp [strokeReplace, h]

theorem decomposeOutlinesStep_spec (expand : Shape → List Shape) (shapes : List Shape) :
    decomposeOutlinesStep expand shapes.length shapes
      = (shapes.map (strokeReplace expand)).flatten := by
  have h := decomposeOutlinesStep_rev expand shapes.reverse []
  simpa using h

theorem setUpEnviroment_snd_ok (e : PyEnv)
    (h : e.venvExists = true ∨ (e.venvRc = 0 ∧ e.pipRc = 0)) :
    (setUpEnviroment e).2 = Except.ok (venvPythonPathOf e) := by
  unfold setUpEnviroment
  rcases h with h | ⟨h1, h2⟩
  · simp [h]
  · by_cases hv : e.venvExists <;> simp [hv, h1, h2]

theorem fontmakeErrorMessage_eq (stdout : String) :
    fontmakeErrorMessage stdout =
      if pyJoin "\n" (fontmakeErrorLines stdout) = "" then genericErrorMessage
      else pyJoin "\n" (fontmakeErrorLines stdout) := rfl

/-! ### Claim theorems -/

/-- C3: the error-line filter retains exactly the lines that begin with
`"ERROR:"` or contain `"fontmake: Error:"`, in their original order; the
failure message is those lines joined by newlines, and when the filter result
is empty (the non-zero-exit case is the only one in which the message is
computed at all) the message is the fixed generic fallback directing the user
to the log console. -/
theorem claim_c3_error_filter (stdout : String) :
    fontmakeErrorLines stdout = (pySplitlines stdout).filter isFatalLine
    ∧ (fontmakeErrorLines stdout ≠ [] →
        fontmakeErrorMessage stdout = pyJoin "\n" (fontmakeErrorLines stdout))
    ∧ (fontmakeErrorLines stdout = [] → fontmakeErrorMessage stdout = genericErrorMessage) := by
  refine ⟨fontmakeErrorLines_eq_filter stdout, ?_, ?_⟩
  · intro hne
    match hl : fontmakeErrorLines stdout with
    | [] => exact absurd hl hne
    | l0 :: ls =>
      have hmem : l0 ∈ fontmakeErrorLines stdout := by
        rw [hl]
        exact List.mem_cons_self l0 ls
      rw [fontmakeErrorLines_eq_filter] at hmem
      have hfatal : isFatalLine l0 = true := (List.mem_filter.mp hmem).2
      have hne0 : l0 ≠ "" := by
        intro h0
        rw [h0, isFatalLine_empty] at hfatal
        cases hfatal
      have hjoin : pyJoin "\n" (fontmakeErrorLines stdout) ≠ "" := by
        rw [hl]
        exact pyJoin_ne_empty _ _ _ hne0
      rw [fontmakeErrorMessage_eq, if_neg hjoin, hl]
  · intro hl
    rw [fontmakeErrorMessage_eq, hl]
    simp [pyJoin]

/-- Witness for C3 at a concrete output block. -/
theorem claim_c3_witness :
    fontmakeErrorMessage "x\nERROR: y" = pyJoin "\n" (fontmakeErrorLines "x\nERROR: y") :=
  (claim_c3_error_filter "x\nERROR: y").2.1 (by decide)

/-- C10: `decompose_outlines` removes and replaces exactly the shapes that
are paths carrying a `strokeWidth` or `strokeHeight` attribute (each replaced
by its expanded stroke, which the per-index insertion loop leaves reversed);
every other shape of the layer is kept unchanged, in place, and the layer's
other fields are untouched. -/
theorem claim_c10_decompose_outlines (api : HostApi) (layer : Layer) :
    (decompose_outlines api layer).shapes
        = (layer.shapes.map (strokeReplace api.expandedStroke)).flatten
    ∧ (decompose_outlines api layer).isMasterLayer = layer.isMasterLayer
    ∧ (decompose_outlines api layer).isSpecialLayer = layer.isSpecialLayer :=
  ⟨decomposeOutlinesStep_spec api.expandedStroke layer.shapes, rfl, rfl⟩

/-- C9: with an empty selection the add-option callback leaves the stored
additional-options preference unchanged; with a non-empty selection the new
value is the previous string (or `""`) with the selected identifiers joined
by single spaces appended directly, with no separating space. -/
theorem claim_c9_add_parameter (selected : List String) (stored : Option String) :
    (selected = [] → addParameter selected stored = stored)
    ∧ (selected ≠ [] →
        addParameter selected stored = some (stored.getD "" ++ pyJoin " " selected)) := by
  constructor
  · intro h
    subst h
    rfl
  · intro h
    have hlen : ¬ selected.length = 0 := by simpa [List.length_eq_zero] using h
    simp only [addParameter, if_neg hlen]
    cases stored <;> rfl

/-- Witness for C9: appending `-x -y` to `"abc"` yields `"abc-x -y"` (no
separating space). -/
theorem claim_c9_witness :
    addParameter ["-x", "-y"] (some "abc")
      = some ((some "abc").getD "" ++ pyJoin " " ["-x", "-y"]) :=
  (claim_c9_add_parameter ["-x", "-y"] (some "abc")).2 (by decide)

/-- C8: when the venv interpreter exists, `setUpEnviroment` returns its path
at once without starting any subprocess; when it is absent it runs exactly
the venv-creation command (with the host's interpreter) and then the
`fontmake[all]` install command, and each of the two steps raises
`CalledProcessError` on a non-zero exit because it is run with
`check=True`. -/
theorem claim_c8_setup_environment (e : PyEnv) :
    (e.venvExists = true → setUpEnviroment e = ([], Except.ok (venvPythonPathOf e)))
    ∧ (e.venvExists = false → e.venvRc ≠ 0 →
        setUpEnviroment e = ([venvCommand e], Except.error "CalledProcessError: venv"))
    ∧ (e.venvExists = false → e.venvRc = 0 → e.pipRc ≠ 0 →
        setUpEnviroment e
          = ([venvCommand e, pipCommand e], Except.error "CalledProcessError: pip install"))
    ∧ (e.venvExists = false → e.venvRc = 0 → e.pipRc = 0 →
        setUpEnviroment e = ([venvCommand e, pipCommand e], Except.ok (venvPythonPathOf e))) :=
  ⟨fun h => by simp [setUpEnviroment, h],
   fun h1 h2 => by simp [setUpEnviroment, h1, h2],
   fun h1 h2 h3 => by simp [setUpEnviroment, h1, h2, h3],
   fun h1 h2 h3 => by simp [setUpEnviroment, h1, h2, h3]⟩

/-- Witness for C8: with the venv absent and a failing creation step, exactly
the creation command ran and the exception surfaced. -/
theorem claim_c8_witness :
    setUpEnviroment envVenvMissing
      = ([venvCommand envVenvMissing], Except.error "CalledProcessError: venv") :=
  (claim_c8_setup_environment envVenvMissing).2.1 rfl (by decide)

/-- C2: the normalization loop maps every glyph's layer list through the
per-layer step; a layer that is neither a master layer nor a special layer is
untouched; a master/special layer with a mask-carrying shape has all its
shapes replaced by the single flattened pen-drawn shape; otherwise exactly the
three passes decompose-corners, decompose-outlines, decompose-reversed-
components are applied, in that fixed order. -/
theorem claim_c2_layer_normalization (api : HostApi) (font : Font) (layer : Layer) :
    (normalizeFont api font).glyphs
        = font.glyphs.map (fun g => { g with layers := g.layers.map (normalizeLayerStep api) })
    ∧ ((layer.isMasterLayer || layer.isSpecialLayer) = false →
        normalizeLayerStep api layer = layer)
    ∧ ((layer.isMasterLayer || layer.isSpecialLayer) = true →
        (layer.shapes.any (fun sh => sh.hasAttr "mask") = true →
          normalizeLayerStep api layer = bake_everything api layer
          ∧ (normalizeLayerStep api layer).shapes = [api.bakedShape layer])
        ∧ (layer.shapes.any (fun sh => sh.hasAttr "mask") = false →
          normalizeLayerStep api layer
            = decompose_reversed_components api
                (decompose_outlines api (decompose_corners api layer)))) := by
  refine ⟨rfl, ?_, ?_⟩
  · intro h
    simp [normalizeLayerStep, h]
  · intro h
    constructor
    · intro hm
      have hmask : layerHasMasks layer = true := by rw [layerHasMasks_eq_any, hm]
      exact ⟨by simp [normalizeLayerStep, h, hmask],
             by simp [normalizeLayerStep, h, hmask, bake_everything]⟩
    · intro hm
      have hmask : layerHasMasks layer = false := by rw [layerHasMasks_eq_any, hm]
      simp [normalizeLayerStep, h, hmask]

/-- Witness for C2 on a concrete master layer with a mask shape. -/
theorem claim_c2_witness :
    normalizeLayerStep apiDefault layerWithMask = bake_everything apiDefault layerWithMask
    ∧ (normalizeLayerStep apiDefault layerWithMask).shapes
        = [apiDefault.bakedShape layerWithMask] :=
  ((claim_c2_layer_normalization apiDefault fontSample layerWithMask).2.2 (by decide)).1
    (by decide)

/-- C6: whatever `export` returns, the document font it was handed comes out
unchanged, and any staged font it produced is the normalization of a copy. -/
theorem claim_c6_original_font_untouched (api : HostApi) (e : PyEnv) (font : Font)
    (t : ExportTrace) (h : exportFont api e font = Except.ok t) :
    t.documentFont = font
    ∧ (t.stagedFont = none ∨ t.stagedFont = some (normalizeFont api font)) := by
  unfold exportFont at h
  split at h
  · simp at h
  · split at h
    · injection h with h
      subst h
      exact ⟨rfl, Or.inl rfl⟩
    · split at h
      · simp at h
      · split at h
        · injection h with h
          subst h
          exact ⟨rfl, Or.inr rfl⟩
        · injection h with h
          subst h
          exact ⟨rfl, Or.inr rfl⟩

/-- Witness for C6 at a concrete run. -/
theorem claim_c6_witness :
    traceNoPath.documentFont = fontSample
    ∧ (traceNoPath.stagedFont = none
        ∨ traceNoPath.stagedFont = some (normalizeFont apiDefault fontSample)) :=
  claim_c6_original_font_untouched apiDefault envNoPath fontSample traceNoPath rfl

/-- C7: when the environment bootstrap succeeds and the resolved export
destination is absent, `export` returns `(False, "No export path")` with no
font copy staged, no file saved and no compiler invocation. -/
theorem claim_c7_no_export_path (api : HostApi) (e : PyEnv) (font : Font)
    (hboot : e.venvExists = true ∨ (e.venvRc = 0 ∧ e.pipRc = 0))
    (hpath : (if e.useExportPath then e.exportPathPref else e.folderChoice) = none) :
    exportFont api e font
      = Except.ok
          { ranCommands := (setUpEnviroment e).1, stagedFont := none, savedPath := none,
            compilerArgs := none, documentFont := font, success := false,
            message := "No export path" } := by
  unfold exportFont
  rw [setUpEnviroment_snd_ok e hboot, hpath]

/-- Witness for C7 at a concrete run. -/
theorem claim_c7_witness :
    exportFont apiDefault envNoPath fontSample
      = Except.ok
          { ranCommands := (setUpEnviroment envNoPath).1, stagedFont := none, savedPath := none,
            compilerArgs := none, documentFont := fontSample, success := false,
            message := "No export path" } :=
  claim_c7_no_export_path apiDefault envNoPath fontSample (Or.inl rfl) rfl

/-- C1, counterexample to the claim as stated: a run whose captured output
contains a line beginning with `"ERROR:"` but whose compiler subprocess exits
zero returns success, although the claim requires failure whenever such a
line is present. -/
theorem claim_c1_counterexample :
    (exportFont apiDefault envErrorLineZeroExit fontSample).toOption.map ExportTrace.success
        = some true
    ∧ fontmakeErrorLines envErrorLineZeroExit.compilerStdout ≠ [] := by
  constructor
  · rfl
  · decide

/-- C1, amended: for every run of `export` in which the compiler was invoked,
the result is failure if and only if the subprocess exited non-zero; the
error-marker lines only determine the failure message (matching lines joined,
generic fallback otherwise), and a zero exit yields `(True, "OK")` regardless
of the captured output. -/
theorem claim_c1_failure_iff_nonzero_exit (api : HostApi) (e : PyEnv) (font : Font)
    (t : ExportTrace) (h : exportFont api e font = Except.ok t)
    (hc : t.compilerArgs ≠ none) :
    (t.success = false ↔ e.compilerRc ≠ 0)
    ∧ (e.compilerRc ≠ 0 → t.message = fontmakeErrorMessage e.compilerStdout)
    ∧ (e.compilerRc = 0 → t.message = "OK") := by
  unfold exportFont at h
  split at h
  · simp at h
  · split at h
    · injection h with h
      subst h
      simp at hc
    · split at h
      · simp at h
      · split at h
        · rename_i hrc
          injection h with h
          subst h
          exact ⟨by simp [hrc], fun _ => rfl, fun h0 => absurd h0 hrc⟩
        · rename_i hrc
          injection h with h
          subst h
          have h0 : e.compilerRc = 0 := not_not.mp hrc
          exact ⟨by simp [h0], fun hne => absurd h0 hne, fun _ => rfl⟩

/-- Witness for the amended C1 at a concrete failing run. -/
theorem claim_c1_witness :
    (traceCompilerFails.success = false ↔ envCompilerFails.compilerRc ≠ 0)
    ∧ (envCompilerFails.compilerRc ≠ 0 →
        traceCompilerFails.message = fontmakeErrorMessage envCompilerFails.compilerStdout)
    ∧ (envCompilerFails.compilerRc = 0 → traceCompilerFails.message = "OK") :=
  claim_c1_failure_iff_nonzero_exit apiDefault envCompilerFails fontSample traceCompilerFails
    rfl (by simp [traceCompilerFails])

/-- C4: whenever the chosen output format is one of the four configured ones
and the additional-options string tokenizes, the argument list handed to the
compiler is exactly the venv interpreter path, `-m`, `fontmake`,
`--output-dir`, the export path, `-g`, the staged file path, `-o`, the
format's flag tuple, then the shell-word-split extra tokens in order (the
optional `--master-dir`/`--instance-dir` of the claim are never inserted by
the code, which the fixed shape of this list shows). -/
theorem claim_c4_argument_list (venvPython exportPath tempFile : String) (fmt : Int)
    (opts : Option String) (flags toks : List String)
    (hfmt : outlineformatKeys fmt = some flags)
    (htoks : effectiveTokens opts = some toks) :
    buildArguments venvPython exportPath tempFile fmt opts
      = some ([venvPython, "-m", "fontmake", "--output-dir", exportPath, "-g", tempFile, "-o"]
          ++ flags ++ toks) := by
  unfold buildArguments
  rw [hfmt, htoks]

/-- Witness for C4 at the static-CFF format with two extra tokens. -/
theorem claim_c4_witness :
    buildArguments "VP" "/out" "/tmp/font.glyphs" 3 (some "--no-production-names -u")
      = some (["VP", "-m", "fontmake", "--output-dir", "/out", "-g", "/tmp/font.glyphs", "-o"]
          ++ ["otf", "-i"] ++ ["--no-production-names", "-u"]) :=
  claim_c4_argument_list "VP" "/out" "/tmp/font.glyphs" 3 (some "--no-production-names -u")
    ["otf", "-i"] ["--no-production-names", "-u"] rfl rfl

/-- C5, counterexample to the claim as stated: recording a path that is
already in the recent list leaves the list unchanged, so the newly chosen
path is not the first element. -/
theorem claim_c5_counterexample :
    recordRecentExportPath (some ["A", "B"]) "B" = ["A", "B"]
    ∧ (recordRecentExportPath (some ["A", "B"]) "B").head? ≠ some "B" := by
  constructor
  · rfl
  · decide

/-- C5, amended: recording a path yields a duplicate-free list containing the
path and every previously stored path (so the list can grow without bound);
when the path was not already stored it becomes the first element, but when
it was already stored the ordered-set insert has no effect and the list is
just the deduplicated previous list, with the path left at its existing
position. -/
theorem claim_c5_recent_paths (stored : Option (List String)) (path : String) :
    (recordRecentExportPath stored path).Nodup
    ∧ path ∈ recordRecentExportPath stored path
    ∧ (∀ x ∈ stored.getD [], x ∈ recordRecentExportPath stored path)
    ∧ (path ∉ stored.getD [] → (recordRecentExportPath stored path).head? = some path)
    ∧ (path ∈ stored.getD [] →
        recordRecentExportPath stored path = nsOrderedSetFromArray (stored.getD [])) := by
  unfold recordRecentExportPath nsOrderedSetInsertAtZero
  by_cases hp : path ∈ nsOrderedSetFromArray (stored.getD [])
  · rw [if_pos hp]
    refine ⟨nodup_nsOrderedSetFromArray _, hp, ?_, ?_, fun _ => rfl⟩
    · intro x hx
      exact (mem_nsOrderedSetFromArray _ _).mpr hx
    · intro hnp
      exact absurd ((mem_nsOrderedSetFromArray _ _).mp hp) hnp
  · rw [if_neg hp]
    refine ⟨List.nodup_cons.mpr ⟨hp, nodup_nsOrderedSetFromArray _⟩,
            List.mem_cons_self _ _, ?_, fun _ => rfl, ?_⟩
    · intro x hx
      exact List.mem_cons_of_mem _ ((mem_nsOrderedSetFromArray _ _).mpr hx)
    · intro hmem
      exact absurd ((mem_nsOrderedSetFromArray _ _).mpr hmem) hp

/-- Witness for the amended C5: a genuinely new path lands at the front. -/
theorem claim_c5_witness :
    (recordRecentExportPath (some ["A"]) "B").head? = some "B" :=
  (claim_c5_recent_paths (some ["A"]) "B").2.2.2.1 (by decide)

end FontMakeExport
